import Mathlib

/-!
Verification of the SIMPLE thermal marching engine (`src/model.rs`, `src/zone.rs`).

The development shallowly embeds the Rust code: machine floats become real
numbers, the externally owned simulation-state vector becomes a list of
`SimulationStateElement`s, Rust panics become explicit `panicked` outcomes,
and fallible functions return `Option`/`Except`.  External collaborator
crates that are not part of this repository (the building data model, the
weather provider, the calendar) are modelled by the interfaces the engine
consumes, following the shapes used at the call sites in `model.rs`.
-/

set_option maxHeartbeats 1000000

/-- Modelled from the spec: `gas_properties::air::specific_heat()`.  The
`gas_properties` crate is not under `src/`; the call sites in `model.rs` and
`zone.rs` invoke it with no argument, so it is a constant (J/(kg K)). -/
def air_specific_heat : ℝ := 1004

/-- Modelled from the spec: `gas_properties::air::density()`.  Constant air
density (kg/m3), called with no argument by `zone.rs`. -/
def air_density : ℝ := 1.225

/-- Elements of the externally owned simulation-state vector
(`SimulationStateElement` in the `building_model` crate), restricted to the
variants the thermal engine reads and writes. -/
inductive SimulationStateElement where
  | SpaceDryBulbTemperature (spaceIndex : ℕ) (v : ℝ)
  | SpaceLightingPowerConsumption (spaceIndex : ℕ) (v : ℝ)
  | SpaceHeatingCoolingPowerConsumption (spaceIndex : ℕ) (v : ℝ)
  | SurfaceNodeTemperature (surfaceIndex : ℕ) (nodeIndex : ℕ) (v : ℝ)

/-- The externally owned simulation-state vector (`SimulationState`). -/
abbrev SimState : Type := List SimulationStateElement

/-- Outcome of a computation that may hit a Rust `panic`. -/
inductive CalcResult where
  | value (v : ℝ)
  | panicked (msg : String)

/-- `ThermalZone` from `src/zone.rs`: a thin adapter over a space. -/
structure ThermalZone where
  name : String
  index : ℕ
  surface_indexes : List ℕ
  volume : ℝ
  temperature_state_index : ℕ
  heating_cooling_state_index : Option ℕ
  luminaire_state_index : Option ℕ

/-- `ThermalZone::mcp` from `src/zone.rs`: `volume * air_density * air_specific_heat`. -/
def ThermalZone.mcp (z : ThermalZone) : ℝ :=
  z.volume * air_density * air_specific_heat

/-- `ThermalZone::temperature` from `src/zone.rs`.  Reads the zone's
dry-bulb temperature slot; the `panic!` branches (wrong index, wrong element
kind, out-of-bounds state access) are modelled by `none`. -/
def ThermalZone.temperature (z : ThermalZone) (st : SimState) : Option ℝ :=
  match st.get? z.temperature_state_index with
  | some (.SpaceDryBulbTemperature i v) => if i = z.index then some v else none
  | _ => none

/-- The panic message of `ThermalZone::calc_lighting_power` when the stored
space index matches the zone's own index (`src/zone.rs` line 106). -/
def lightingPanicMsg : String := "Getting Lighting for the wrong Space"

/-- `ThermalZone::calc_lighting_power` from `src/zone.rs` lines 99-118,
with Rust panics embedded as `CalcResult.panicked`.  Note the source panics
when `space_index == self.index` and returns the stored power otherwise. -/
def ThermalZone.calc_lighting_power (z : ThermalZone) (st : SimState) : CalcResult :=
  match z.luminaire_state_index with
  | some i =>
    match st.get? i with
    | some (.SpaceLightingPowerConsumption space_index s) =>
        if space_index = z.index then .panicked lightingPanicMsg else .value s
    | some _ => .panicked "Corrupt BUildingState... incorrect SimulationStateElement found"
    | none => .panicked "state index out of bounds"
  | none => .value 0.0

/-- `ThermalZone::set_temperature` as invoked by `ThermalModel::march`
(`src/model.rs` line 271); the write pattern follows the
`SpaceDryBulbTemperature` slot updates of `src/zone.rs`. -/
def ThermalZone.set_temperature (z : ThermalZone) (v : ℝ) (st : SimState) : SimState :=
  st.set z.temperature_state_index (.SpaceDryBulbTemperature z.index v)

/-- The boundary tagged union from the `building_model` crate as matched in
`src/model.rs`: a surface face either sees another zone or the ground;
"outdoor" is represented by the absence of a boundary (`None`). -/
inductive Boundary where
  | space (zIndex : ℕ)
  | ground
deriving DecidableEq

/-- A thermal surface (`ThermalSurface`, also used for fenestrations) as
consumed by the driver in `src/model.rs`.  The crate file `surface.rs` is
not under `src/`; its accessors and its `march` are modelled from the spec:
`area`, the front/back film resistances `rs_front`/`rs_back`, the face node
temperatures read from the state, the optional front/back boundary, and a
`march` that advances the node temperatures in the state given the front and
back air temperatures and the substep length. -/
structure TSurface where
  area : ℝ
  rs_front : ℝ
  rs_back : ℝ
  front_boundary : Option Boundary
  back_boundary : Option Boundary
  front_temperature : SimState → ℝ
  back_temperature : SimState → ℝ
  march : SimState → ℝ → ℝ → ℝ → SimState

/-- A space of the building data model, restricted to the accessors
`calculate_zones_abc` consumes (spec section 6 collaborator contract). -/
structure Space where
  infiltration_temperature : SimState → Option ℝ
  infiltration_volume : SimState → Option ℝ
  ventilation_temperature : SimState → Option ℝ
  ventilation_volume : SimState → Option ℝ

/-- The space used when `building.spaces[i]` is indexed; in the Rust code an
out-of-range index panics, which never happens for models built by `new`
(one zone per space, same order). -/
def defaultSpace : Space :=
  { infiltration_temperature := fun _ => none
    infiltration_volume := fun _ => none
    ventilation_temperature := fun _ => none
    ventilation_volume := fun _ => none }

/-- An HVAC unit as consumed by `calculate_zones_abc`.  Modelled from the
spec: `heating_cooling.rs` and the `heating_cooling_consumption` accessor are
not under `src/`, so the composition `calc_cooling_heating_power(hvac,
hvac.heating_cooling_consumption(state))` is collapsed into one delivered
power per state. -/
structure Hvac where
  target_space_indices : List ℕ
  power : SimState → ℝ

/-- A luminaire as consumed by `calculate_zones_abc`: an optional target
space and its current electrical power consumption. -/
structure Luminaire where
  target_space_index : Option ℕ
  power_consumption : SimState → ℝ

/-- The read-only building view consumed by the driver. -/
structure Building where
  spaces : List Space
  hvacs : List Hvac
  luminaires : List Luminaire

/-- The weather capability consumed by `march`:
`weather.get_weather_data(date).dry_bulb_temperature`.  The date is modelled
as elapsed seconds (the `calendar` crate is an external collaborator; `march`
only ever adds `dt` seconds to it). -/
structure Weather where
  dry_bulb_temperature : ℝ → Option ℝ

/-- The `ThermalModel` struct from `src/model.rs` lines 34-52. -/
structure ThermalModel where
  zones : List ThermalZone
  surfaces : List TSurface
  fenestrations : List TSurface
  dt_subdivisions : ℕ
  dt : ℝ

/-- The subdivision accumulation loop of `ThermalModel::new`
(`src/model.rs` lines 87-101), taking the per-construction substep divisors
returned by `discretize_construction` as input:
starting from 1, each divisor is first multiplied by the accumulator
(`found_n_subdivisions *= n_subdivisions`) and the accumulator is replaced
when the product exceeds it. -/
def newSubdivLoop : List ℕ → ℕ → ℕ
  | [], n => n
  | d :: rest, n =>
      let found := d * n
      newSubdivLoop rest (if found > n then found else n)

/-- `dt_subdivisions` as computed by `ThermalModel::new` from the
per-construction divisors. -/
def newDtSubdivisions (divs : List ℕ) : ℕ := newSubdivLoop divs 1

/-- The model `dt` set by `ThermalModel::new` (`src/model.rs` line 104):
`60*60/(n * n_subdivisions)`. -/
noncomputable def newModelDt (n subdiv : ℕ) : ℝ := 60 * 60 / ((n : ℝ) * (subdiv : ℝ))

/-- In-place `v[i] += x` on a coefficient vector (Rust `a[i] += x`). -/
def addAt (v : List ℝ) (i : ℕ) (x : ℝ) : List ℝ := v.set i (v.getD i 0 + x)

/-- Inner loop of the HVAC pass of `calculate_zones_abc` (`src/model.rs`
lines 376-384): add the delivered power to `a` at every target space. -/
def hvacTargets : List ℕ → ℝ → List ℝ → List ℝ
  | [], _, a => a
  | i :: rest, p, a => hvacTargets rest p (addAt a i p)

/-- HVAC pass of `calculate_zones_abc`. -/
def hvacPhase : List Hvac → SimState → List ℝ → List ℝ
  | [], _, a => a
  | h :: rest, st, a => hvacPhase rest st (hvacTargets h.target_space_indices (h.power st) a)

/-- Luminaire pass of `calculate_zones_abc` (`src/model.rs` lines 387-393). -/
def lumPhase : List Luminaire → SimState → List ℝ → List ℝ
  | [], _, a => a
  | l :: rest, st, a =>
      match l.target_space_index with
      | some i => lumPhase rest st (addAt a i (l.power_consumption st))
      | none => lumPhase rest st a

/-- Infiltration and ventilation additions for one zone
(`src/model.rs` lines 398-422).  `none` models the `expect` panic raised
when a space reports a flow temperature but no flow volume.  Both specific
heats in the source are the same constant `gas_properties::air::specific_heat()`. -/
def infVentStep (space : Space) (st : SimState) (i : ℕ) (a bb : List ℝ) :
    Option (List ℝ × List ℝ) :=
  let cp_zone := air_specific_heat
  let step1 : Option (List ℝ × List ℝ) :=
    match space.infiltration_temperature st with
    | some t_inf =>
        match space.infiltration_volume st with
        | some m_inf =>
            let cp_inf := air_specific_heat
            some (addAt a i (m_inf * cp_inf * t_inf), addAt bb i (m_inf * cp_zone))
        | none => none
    | none => some (a, bb)
  match step1 with
  | none => none
  | some (a1, bb1) =>
      match space.ventilation_temperature st with
      | some t_vent =>
          match space.ventilation_volume st with
          | some m_vent =>
              let cp_vent := air_specific_heat
              some (addAt a1 i (m_vent * cp_vent * t_vent), addAt bb1 i (m_vent * cp_zone))
          | none => none
      | none => some (a1, bb1)

/-- Per-zone loop of `calculate_zones_abc` (`src/model.rs` lines 396-429):
infiltration, ventilation and the capacitance `c[i] = zone.mcp()`. -/
def zonePhase (spaces : List Space) (st : SimState) :
    List ThermalZone → ℕ → List ℝ → List ℝ → List ℝ →
    Option (List ℝ × List ℝ × List ℝ)
  | [], _, a, bb, c => some (a, bb, c)
  | z :: rest, i, a, bb, c =>
      let space := spaces.getD i defaultSpace
      match infVentStep space st i a bb with
      | none => none
      | some (a1, bb1) => zonePhase spaces st rest (i + 1) a1 bb1 (c.set i z.mcp)

/-- One face's contribution inside `iterate_surfaces` (`src/model.rs`
lines 441-455): when the face's boundary is a zone, add `hi*ai*temp` to `a`
and `hi*ai` to `b` at that zone's index. -/
def surfFaceAB (bd : Option Boundary) (hi ai temp : ℝ) (a bb : List ℝ) :
    List ℝ × List ℝ :=
  match bd with
  | some (.space z) => (addAt a z (hi * ai * temp), addAt bb z (hi * ai))
  | _ => (a, bb)

/-- The nested `iterate_surfaces` function of `calculate_zones_abc`
(`src/model.rs` lines 432-457). -/
noncomputable def iterateSurfaces : List TSurface → SimState → List ℝ → List ℝ → List ℝ × List ℝ
  | [], _, a, bb => (a, bb)
  | s :: rest, st, a, bb =>
      let ai := s.area
      let p1 := surfFaceAB s.front_boundary (1 / s.rs_front) ai (s.front_temperature st) a bb
      let p2 := surfFaceAB s.back_boundary (1 / s.rs_back) ai (s.back_temperature st) p1.1 p1.2
      iterateSurfaces rest st p2.1 p2.2

/-- `ThermalModel::calculate_zones_abc` from `src/model.rs` lines 362-467.
`none` models the `expect` panics of the Rust code. -/
noncomputable def ThermalModel.calculate_zones_abc (m : ThermalModel) (b : Building) (st : SimState) :
    Option (List ℝ × List ℝ × List ℝ) :=
  let nzones := m.zones.length
  let a0 := List.replicate nzones (0 : ℝ)
  let b0 := List.replicate nzones (0 : ℝ)
  let c0 := List.replicate nzones (0 : ℝ)
  let a1 := hvacPhase b.hvacs st a0
  let a2 := lumPhase b.luminaires st a1
  match zonePhase b.spaces st m.zones 0 a2 b0 c0 with
  | none => none
  | some (a3, b3, c3) =>
      let p1 := iterateSurfaces m.surfaces st a3 b3
      let p2 := iterateSurfaces m.fenestrations st p1.1 p1.2
      some (p2.1, p2.2, c3)

/-- `ThermalModel::get_current_zones_temperatures` from `src/model.rs`
lines 471-484; `none` models the panic inside `ThermalZone::temperature`. -/
def zoneTemps : List ThermalZone → SimState → Option (List ℝ)
  | [], _ => some []
  | z :: rest, st =>
      match z.temperature st, zoneTemps rest st with
      | some t, some ts => some (t :: ts)
      | _, _ => none

/-- `ThermalModel::estimate_zones_future_temperatures` from `src/model.rs`
lines 520-538: the analytic update
`a/b + (t_current - a/b) * exp(-b * future_time / c)` applied to every zone
index, with no special case for small `b`. -/
noncomputable def ThermalModel.estimate_zones_future_temperatures (m : ThermalModel)
    (t_current a b c : List ℝ) (future_time : ℝ) : List ℝ :=
  (List.range m.zones.length).map fun i =>
    a.getD i 0 / b.getD i 0 +
      (t_current.getD i 0 - a.getD i 0 / b.getD i 0) *
        Real.exp (-b.getD i 0 * future_time / c.getD i 0)

/-- `ThermalModel::estimate_zones_mean_future_temperatures` from
`src/model.rs` lines 491-514 (retained for diagnostics). -/
noncomputable def ThermalModel.estimate_zones_mean_future_temperatures (m : ThermalModel)
    (t_current a b c : List ℝ) (future_time : ℝ) : List ℝ :=
  (List.range m.zones.length).map fun i =>
    a.getD i 0 / b.getD i 0 +
      (c.getD i 0 * (t_current.getD i 0 - a.getD i 0 / b.getD i 0) / future_time / b.getD i 0) *
        (1 - Real.exp (-b.getD i 0 * future_time / c.getD i 0))

/-- Boundary temperature resolution in `march` (`src/model.rs` lines
221-234 and 246-259): a zone boundary reads the substep's snapshot vector,
no boundary means outdoors, and `Ground` hits `unimplemented!()`, modelled
as `none`. -/
def resolveBoundaryTemp (bd : Option Boundary) (t_current : List ℝ) (t_out : ℝ) :
    Option ℝ :=
  match bd with
  | some (.space z) => some (t_current.getD z 0)
  | some .ground => none
  | none => some t_out

/-- The surface loops of `march` (`src/model.rs` lines 216-263): resolve
both boundary temperatures from the snapshot and let each surface advance
the state in order.  `Except.error` carries the panic message of the
`unimplemented!()` reached on a `Ground` boundary. -/
def marchSurfaceList : List TSurface → List ℝ → ℝ → ℝ → SimState →
    Except String SimState
  | [], _, _, _, st => .ok st
  | s :: rest, tc, t_out, dt, st =>
      match resolveBoundaryTemp s.front_boundary tc t_out with
      | none => .error "not implemented"
      | some t_front =>
          match resolveBoundaryTemp s.back_boundary tc t_out with
          | none => .error "not implemented"
          | some t_back => marchSurfaceList rest tc t_out dt (s.march st t_front t_back dt)

/-- The zone write-back loop of `march` (`src/model.rs` lines 270-272). -/
def writeZones : List ThermalZone → List ℝ → ℕ → SimState → SimState
  | [], _, _, st => st
  | z :: rest, fut, i, st => writeZones rest fut (i + 1) (z.set_temperature (fut.getD i 0) st)

/-- Outcome of `ThermalModel::march`: `ok` carries the final state and the
final value of the local date variable; `err` carries the state at the
moment the `Err` was returned; `panicked` models a Rust panic. -/
inductive MarchResult where
  | ok (st : SimState) (date : ℝ)
  | err (st : SimState) (msg : String)
  | panicked (msg : String)

/-- Whether a `MarchResult` is an `Err` return value. -/
def MarchResult.isErr : MarchResult → Bool
  | .err _ _ => true
  | _ => false

/-- The error message returned by `march` when the weather provides no dry
bulb temperature (`src/model.rs` lines 203-209). -/
def weatherErrMsg : String :=
  "Trying to march on Thermal Model, but dry bulb temperature was not provided"

/-- One substep of `ThermalModel::march` (`src/model.rs` lines 198-273):
advance the date, query the weather, snapshot the zone temperatures, march
every surface then every fenestration against the snapshot, assemble
(A,B,C), and write the analytic zone updates back to the state. -/
noncomputable def ThermalModel.substep (m : ThermalModel) (w : Weather) (b : Building)
    (st : SimState) (date : ℝ) : MarchResult :=
  let date1 := date + m.dt
  match w.dry_bulb_temperature date1 with
  | none => .err st weatherErrMsg
  | some t_out =>
      match zoneTemps m.zones st with
      | none => .panicked "Incorrect StateElement kind allocated for Temperature of Space"
      | some t_current =>
          match marchSurfaceList m.surfaces t_current t_out m.dt st with
          | .error msg => .panicked msg
          | .ok st1 =>
              match marchSurfaceList m.fenestrations t_current t_out m.dt st1 with
              | .error msg => .panicked msg
              | .ok st2 =>
                  match m.calculate_zones_abc b st2 with
                  | none => .panicked "HVAC, luminaire or space state was missing"
                  | some (a, bb, c) =>
                      let fut := m.estimate_zones_future_temperatures t_current a bb c m.dt
                      .ok (writeZones m.zones fut 0 st2) date1

/-- The substep iteration of `march`. -/
noncomputable def marchLoop (m : ThermalModel) (w : Weather) (b : Building) :
    ℕ → SimState → ℝ → MarchResult
  | 0, st, date => .ok st date
  | k + 1, st, date =>
      match m.substep w b st date with
      | .ok st1 date1 => marchLoop m w b k st1 date1
      | r => r

/-- `ThermalModel::march` from `src/model.rs` lines 188-276: perform
`dt_subdivisions` substeps. -/
noncomputable def ThermalModel.march (m : ThermalModel) (w : Weather) (b : Building)
    (st : SimState) (date : ℝ) : MarchResult :=
  marchLoop m w b m.dt_subdivisions st date

/-- `ThermalModel::get_thermal_zone` from `src/model.rs` lines 288-297. -/
def ThermalModel.get_thermal_zone (m : ThermalModel) (index : ℕ) :
    Except String ThermalZone :=
  if h : index ≥ m.zones.length then
    .error ("Ouf of bounds: Thermal Zone number " ++ toString index ++ " does not exist")
  else
    .ok (m.zones.get ⟨index, Nat.lt_of_not_le h⟩)

/-- `ThermalModel::get_thermal_surface` from `src/model.rs` lines 300-309. -/
def ThermalModel.get_thermal_surface (m : ThermalModel) (index : ℕ) :
    Except String TSurface :=
  if h : index ≥ m.surfaces.length then
    .error ("Ouf of bounds: Thermal Surface number " ++ toString index ++ " does not exist")
  else
    .ok (m.surfaces.get ⟨index, Nat.lt_of_not_le h⟩)

/-- `ThermalModel::get_thermal_fenestration` from `src/model.rs` lines
312-321 (the source reuses the "Thermal Surface" wording in the message). -/
def ThermalModel.get_thermal_fenestration (m : ThermalModel) (index : ℕ) :
    Except String TSurface :=
  if h : index ≥ m.fenestrations.length then
    .error ("Ouf of bounds: Thermal Surface number " ++ toString index ++ " does not exist")
  else
    .ok (m.fenestrations.get ⟨index, Nat.lt_of_not_le h⟩)

lemma addAt_length (v : List ℝ) (i : ℕ) (x : ℝ) : (addAt v i x).length = v.length :=
  List.length_set v i (v.getD i 0 + x)

lemma addAt_getD_self (v : List ℝ) (i : ℕ) (x : ℝ) (h : i < v.length) :
    (addAt v i x).getD i 0 = v.getD i 0 + x := by
  simp [addAt, List.getD_eq_getElem?_getD, List.getElem?_set_self, h]

lemma addAt_getD_ne (v : List ℝ) (i j : ℕ) (x : ℝ) (h : j ≠ i) :
    (addAt v i x).getD j 0 = v.getD j 0 := by
  simp [addAt, List.getD_eq_getElem?_getD, List.getElem?_set_ne (Ne.symm h)]

lemma set_getD_ne (v : List ℝ) (i j : ℕ) (x : ℝ) (h : j ≠ i) :
    (v.set i x).getD j 0 = v.getD j 0 := by
  simp [List.getD_eq_getElem?_getD, List.getElem?_set_ne (Ne.symm h)]

lemma range_map_getD (n i : ℕ) (h : i < n) (f : ℕ → ℝ) :
    ((List.range n).map f).getD i 0 = f i := by
  simp [List.getD_eq_getElem?_getD, List.getElem?_map, List.getElem?_range h]

lemma replicate_getD (n i : ℕ) (h : i < n) : (List.replicate n (0 : ℝ)).getD i 0 = 0 := by
  simp [List.getD_eq_getElem?_getD, List.getElem?_replicate, h]

/-- The `A`-side contribution of one surface to zone `z` claimed for
`iterate_surfaces`: `h*A_surf*T_surf` for each face whose boundary is zone
`z`, with `h` the reciprocal film resistance of that face. -/
noncomputable def surfContribA (s : TSurface) (st : SimState) (z : ℕ) : ℝ :=
  (if s.front_boundary = some (.space z) then 1 / s.rs_front * s.area * s.front_temperature st else 0) +
    (if s.back_boundary = some (.space z) then 1 / s.rs_back * s.area * s.back_temperature st else 0)

/-- The `B`-side contribution of one surface to zone `z` claimed for
`iterate_surfaces`: `h*A_surf` for each face whose boundary is zone `z`. -/
noncomputable def surfContribB (s : TSurface) (z : ℕ) : ℝ :=
  (if s.front_boundary = some (.space z) then 1 / s.rs_front * s.area else 0) +
    (if s.back_boundary = some (.space z) then 1 / s.rs_back * s.area else 0)

lemma surfFaceAB_length (bd : Option Boundary) (hi ai temp : ℝ) (a bb : List ℝ) :
    (surfFaceAB bd hi ai temp a bb).1.length = a.length ∧
      (surfFaceAB bd hi ai temp a bb).2.length = bb.length := by
  cases bd with
  | none => exact ⟨rfl, rfl⟩
  | some b =>
    cases b with
    | space z => exact ⟨addAt_length _ _ _, addAt_length _ _ _⟩
    | ground => exact ⟨rfl, rfl⟩

lemma surfFaceAB_getD (bd : Option Boundary) (hi ai temp : ℝ) (a bb : List ℝ) (z : ℕ)
    (ha : z < a.length) (hb : z < bb.length) :
    (surfFaceAB bd hi ai temp a bb).1.getD z 0 =
        a.getD z 0 + (if bd = some (.space z) then hi * ai * temp else 0) ∧
      (surfFaceAB bd hi ai temp a bb).2.getD z 0 =
        bb.getD z 0 + (if bd = some (.space z) then hi * ai else 0) := by
  cases bd with
  | none => simp [surfFaceAB]
  | some b =>
    cases b with
    | space j =>
      simp only [surfFaceAB]
      by_cases hj : j = z
      · subst hj
        refine ⟨?_, ?_⟩
        · rw [addAt_getD_self _ _ _ ha]; simp
        · rw [addAt_getD_self _ _ _ hb]; simp
      · have hz : z ≠ j := fun h => hj h.symm
        refine ⟨?_, ?_⟩
        · rw [addAt_getD_ne _ _ _ _ hz]; simp [hj]
        · rw [addAt_getD_ne _ _ _ _ hz]; simp [hj]
    | ground => simp [surfFaceAB]

lemma iterateSurfaces_length (surfs : List TSurface) (st : SimState) (a bb : List ℝ) :
    (iterateSurfaces surfs st a bb).1.length = a.length ∧
      (iterateSurfaces surfs st a bb).2.length = bb.length := by
  induction surfs generalizing a bb with
  | nil => exact ⟨rfl, rfl⟩
  | cons s rest ih =>
    have h1 := surfFaceAB_length s.front_boundary (1 / s.rs_front) s.area (s.front_temperature st) a bb
    set p1 := surfFaceAB s.front_boundary (1 / s.rs_front) s.area (s.front_temperature st) a bb with hp1
    have h2 := surfFaceAB_length s.back_boundary (1 / s.rs_back) s.area (s.back_temperature st) p1.1 p1.2
    set p2 := surfFaceAB s.back_boundary (1 / s.rs_back) s.area (s.back_temperature st) p1.1 p1.2 with hp2
    have h3 := ih p2.1 p2.2
    simp only [iterateSurfaces, ← hp1, ← hp2]
    omega

lemma iterateSurfaces_getD (surfs : List TSurface) (st : SimState) (a bb : List ℝ) (z : ℕ)
    (ha : z < a.length) (hb : z < bb.length) :
    (iterateSurfaces surfs st a bb).1.getD z 0 =
        a.getD z 0 + (surfs.map fun s => surfContribA s st z).sum ∧
      (iterateSurfaces surfs st a bb).2.getD z 0 =
        bb.getD z 0 + (surfs.map fun s => surfContribB s z).sum := by
  induction surfs generalizing a bb with
  | nil => simp [iterateSurfaces]
  | cons s rest ih =>
    have hl1 := surfFaceAB_length s.front_boundary (1 / s.rs_front) s.area (s.front_temperature st) a bb
    set p1 := surfFaceAB s.front_boundary (1 / s.rs_front) s.area (s.front_temperature st) a bb with hp1
    have hl2 := surfFaceAB_length s.back_boundary (1 / s.rs_back) s.area (s.back_temperature st) p1.1 p1.2
    set p2 := surfFaceAB s.back_boundary (1 / s.rs_back) s.area (s.back_temperature st) p1.1 p1.2 with hp2
    have ha1 : z < p1.1.length := by omega
    have hb1 : z < p1.2.length := by omega
    have ha2 : z < p2.1.length := by omega
    have hb2 : z < p2.2.length := by omega
    have hg1 := surfFaceAB_getD s.front_boundary (1 / s.rs_front) s.area (s.front_temperature st) a bb z ha hb
    have hg2 := surfFaceAB_getD s.back_boundary (1 / s.rs_back) s.area (s.back_temperature st) p1.1 p1.2 z ha1 hb1
    have hrest := ih p2.1 p2.2 ha2 hb2
    simp only [iterateSurfaces, ← hp1, ← hp2] at hrest ⊢
    rw [hrest.1, hrest.2, hg2.1, hg2.2, hg1.1, hg1.2]
    simp only [List.map_cons, List.sum_cons, surfContribA, surfContribB]
    constructor <;> ring

/-- The infiltration contribution to `A_i` performed by `calculate_zones_abc`
when the space reports both an infiltration temperature and volume:
`V_inf * c_p * T_inf` (no density factor appears in the source). -/
noncomputable def infContribA (sp : Space) (st : SimState) : ℝ :=
  match sp.infiltration_temperature st, sp.infiltration_volume st with
  | some t, some v => v * air_specific_heat * t
  | _, _ => 0

/-- The infiltration contribution to `B_i`: `V_inf * c_p`. -/
noncomputable def infContribB (sp : Space) (st : SimState) : ℝ :=
  match sp.infiltration_temperature st, sp.infiltration_volume st with
  | some _, some v => v * air_specific_heat
  | _, _ => 0

/-- The ventilation contribution to `A_i`: `V_vent * c_p * T_vent`. -/
noncomputable def ventContribA (sp : Space) (st : SimState) : ℝ :=
  match sp.ventilation_temperature st, sp.ventilation_volume st with
  | some t, some v => v * air_specific_heat * t
  | _, _ => 0

/-- The ventilation contribution to `B_i`: `V_vent * c_p`. -/
noncomputable def ventContribB (sp : Space) (st : SimState) : ℝ :=
  match sp.ventilation_temperature st, sp.ventilation_volume st with
  | some _, some v => v * air_specific_heat
  | _, _ => 0

lemma addAt_spec (v : List ℝ) (i : ℕ) (x : ℝ) :
    (addAt v i x).length = v.length ∧
      (i < v.length → (addAt v i x).getD i 0 = v.getD i 0 + x) ∧
      (∀ j, j ≠ i → (addAt v i x).getD j 0 = v.getD j 0) :=
  ⟨addAt_length v i x, addAt_getD_self v i x, fun j hj => addAt_getD_ne v i j x hj⟩

lemma infVentStep_spec (sp : Space) (st : SimState) (i : ℕ) (a bb a1 bb1 : List ℝ)
    (h : infVentStep sp st i a bb = some (a1, bb1)) :
    a1.length = a.length ∧ bb1.length = bb.length ∧
      (i < a.length → a1.getD i 0 = a.getD i 0 + infContribA sp st + ventContribA sp st) ∧
      (i < bb.length → bb1.getD i 0 = bb.getD i 0 + infContribB sp st + ventContribB sp st) ∧
      (∀ j, j ≠ i → a1.getD j 0 = a.getD j 0 ∧ bb1.getD j 0 = bb.getD j 0) := by
  simp only [infVentStep] at h
  simp only [infContribA, infContribB, ventContribA, ventContribB]
  rcases hit : sp.infiltration_temperature st with _ | t_inf <;> rw [hit] at h
  · rcases hvt : sp.ventilation_temperature st with _ | t_vent <;> rw [hvt] at h
    · simp only [Option.some.injEq, Prod.mk.injEq] at h
      obtain ⟨h1, h2⟩ := h
      subst h1; subst h2
      simp [hit, hvt]
    · rcases hvv : sp.ventilation_volume st with _ | v_vent <;> rw [hvv] at h
      · exact absurd h (by simp)
      · simp only [Option.some.injEq, Prod.mk.injEq] at h
        obtain ⟨h1, h2⟩ := h
        subst h1; subst h2
        obtain ⟨la, ga, na⟩ := addAt_spec a i (v_vent * air_specific_heat * t_vent)
        obtain ⟨lb, gb, nb⟩ := addAt_spec bb i (v_vent * air_specific_heat)
        refine ⟨la, lb, ?_, ?_, ?_⟩
        · intro hlt; rw [ga hlt]; simp [hit, hvt, hvv]
        · intro hlt; rw [gb hlt]; simp [hit, hvt, hvv]
        · intro j hj; exact ⟨na j hj, nb j hj⟩
  · rcases hiv : sp.infiltration_volume st with _ | v_inf <;> rw [hiv] at h
    · exact absurd h (by simp)
    · rcases hvt : sp.ventilation_temperature st with _ | t_vent <;> rw [hvt] at h
      · simp only [Option.some.injEq, Prod.mk.injEq] at h
        obtain ⟨h1, h2⟩ := h
        subst h1; subst h2
        obtain ⟨la, ga, na⟩ := addAt_spec a i (v_inf * air_specific_heat * t_inf)
        obtain ⟨lb, gb, nb⟩ := addAt_spec bb i (v_inf * air_specific_heat)
        refine ⟨la, lb, ?_, ?_, ?_⟩
        · intro hlt; rw [ga hlt]; simp [hit, hiv, hvt]
        · intro hlt; rw [gb hlt]; simp [hit, hiv, hvt]
        · intro j hj; exact ⟨na j hj, nb j hj⟩
      · rcases hvv : sp.ventilation_volume st with _ | v_vent <;> rw [hvv] at h
        · exact absurd h (by simp)
        · simp only [Option.some.injEq, Prod.mk.injEq] at h
          obtain ⟨h1, h2⟩ := h
          subst h1; subst h2
          obtain ⟨la1, ga1, na1⟩ := addAt_spec a i (v_inf * air_specific_heat * t_inf)
          obtain ⟨lb1, gb1, nb1⟩ := addAt_spec bb i (v_inf * air_specific_heat)
          obtain ⟨la2, ga2, na2⟩ :=
            addAt_spec (addAt a i (v_inf * air_specific_heat * t_inf)) i
              (v_vent * air_specific_heat * t_vent)
          obtain ⟨lb2, gb2, nb2⟩ :=
            addAt_spec (addAt bb i (v_inf * air_specific_heat)) i (v_vent * air_specific_heat)
          refine ⟨by rw [la2, la1], by rw [lb2, lb1], ?_, ?_, ?_⟩
          · intro hlt
            rw [ga2 (by rw [la1]; exact hlt), ga1 hlt]
          · intro hlt
            rw [gb2 (by rw [lb1]; exact hlt), gb1 hlt]
          · intro j hj
            exact ⟨by rw [na2 j hj, na1 j hj], by rw [nb2 j hj, nb1 j hj]⟩

lemma zonePhase_spec (spaces : List Space) (st : SimState) :
    ∀ (zones : List ThermalZone) (i : ℕ) (a bb c a1 bb1 c1 : List ℝ),
      zonePhase spaces st zones i a bb c = some (a1, bb1, c1) →
      a1.length = a.length ∧ bb1.length = bb.length ∧
        (∀ j, j < i → a1.getD j 0 = a.getD j 0 ∧ bb1.getD j 0 = bb.getD j 0) ∧
        (∀ k, k < zones.length → i + k < a.length → i + k < bb.length →
          a1.getD (i + k) 0 =
              a.getD (i + k) 0 + infContribA (spaces.getD (i + k) defaultSpace) st +
                ventContribA (spaces.getD (i + k) defaultSpace) st ∧
            bb1.getD (i + k) 0 =
              bb.getD (i + k) 0 + infContribB (spaces.getD (i + k) defaultSpace) st +
                ventContribB (spaces.getD (i + k) defaultSpace) st) := by
  intro zones
  induction zones with
  | nil =>
    intro i a bb c a1 bb1 c1 h
    simp only [zonePhase, Option.some.injEq, Prod.mk.injEq] at h
    obtain ⟨rfl, rfl, rfl⟩ := h
    exact ⟨rfl, rfl, fun j _ => ⟨rfl, rfl⟩, fun k hk => absurd hk (by simp)⟩
  | cons z rest ih =>
    intro i a bb c a1 bb1 c1 h
    simp only [zonePhase] at h
    rcases hstep : infVentStep (spaces.getD i defaultSpace) st i a bb with _ | p <;>
      rw [hstep] at h
    · exact absurd h (by simp)
    · obtain ⟨a2, bb2⟩ := p
      obtain ⟨hla, hlb, hga, hgb, hne⟩ := infVentStep_spec _ _ _ _ _ _ _ hstep
      obtain ⟨hla1, hlb1, hlow, hmain⟩ := ih (i + 1) a2 bb2 (c.set i z.mcp) a1 bb1 c1 h
      refine ⟨by rw [hla1, hla], by rw [hlb1, hlb], ?_, ?_⟩
      · intro j hj
        have hj1 : j < i + 1 := by omega
        have hjne : j ≠ i := by omega
        obtain ⟨e1, e2⟩ := hlow j hj1
        obtain ⟨e3, e4⟩ := hne j hjne
        exact ⟨by rw [e1, e3], by rw [e2, e4]⟩
      · intro k hk hka hkb
        cases k with
        | zero =>
          have hi1 : i + 0 = i := by omega
          rw [hi1] at hka hkb ⊢
          obtain ⟨e1, e2⟩ := hlow i (by omega)
          exact ⟨by rw [e1, hga hka], by rw [e2, hgb hkb]⟩
        | succ k0 =>
          have hi1 : i + (k0 + 1) = (i + 1) + k0 := by omega
          rw [hi1] at hka hkb ⊢
          have hk0 : k0 < rest.length := by simpa using hk
          obtain ⟨e1, e2⟩ := hmain k0 hk0 (by rw [hla]; exact hka) (by rw [hlb]; exact hkb)
          obtain ⟨e3, e4⟩ := hne ((i + 1) + k0) (by omega)
          refine ⟨?_, ?_⟩
          · rw [e1, e3]
          · rw [e2, e4]

lemma hvacTargets_length (idxs : List ℕ) (p : ℝ) (a : List ℝ) :
    (hvacTargets idxs p a).length = a.length := by
  induction idxs generalizing a with
  | nil => rfl
  | cons i rest ih => rw [hvacTargets, ih, addAt_length]

lemma hvacPhase_length (hs : List Hvac) (st : SimState) (a : List ℝ) :
    (hvacPhase hs st a).length = a.length := by
  induction hs generalizing a with
  | nil => rfl
  | cons h rest ih => rw [hvacPhase, ih, hvacTargets_length]

lemma lumPhase_length (ls : List Luminaire) (st : SimState) (a : List ℝ) :
    (lumPhase ls st a).length = a.length := by
  induction ls generalizing a with
  | nil => rfl
  | cons l rest ih =>
    rcases hl : l.target_space_index with _ | i
    · rw [lumPhase, hl, ih]
    · rw [lumPhase, hl, ih, addAt_length]

lemma calculate_zones_abc_spec (m : ThermalModel) (b : Building) (st : SimState)
    (a bb c : List ℝ) (i : ℕ)
    (h : m.calculate_zones_abc b st = some (a, bb, c)) (hi : i < m.zones.length) :
    a.getD i 0 =
        (lumPhase b.luminaires st
            (hvacPhase b.hvacs st (List.replicate m.zones.length 0))).getD i 0 +
          infContribA (b.spaces.getD i defaultSpace) st +
          ventContribA (b.spaces.getD i defaultSpace) st +
          ((m.surfaces ++ m.fenestrations).map fun s => surfContribA s st i).sum ∧
      bb.getD i 0 =
        infContribB (b.spaces.getD i defaultSpace) st +
          ventContribB (b.spaces.getD i defaultSpace) st +
          ((m.surfaces ++ m.fenestrations).map fun s => surfContribB s i).sum := by
  simp only [ThermalModel.calculate_zones_abc] at h
  rcases hz : zonePhase b.spaces st m.zones 0
      (lumPhase b.luminaires st (hvacPhase b.hvacs st (List.replicate m.zones.length 0)))
      (List.replicate m.zones.length 0) (List.replicate m.zones.length 0)
    with _ | p <;> rw [hz] at h
  · exact absurd h (by simp)
  · obtain ⟨a3, b3, c3⟩ := p
    simp only [Option.some.injEq, Prod.mk.injEq] at h
    obtain ⟨ha, hbb, hc⟩ := h
    obtain ⟨hla, hlb, _, hmain⟩ := zonePhase_spec b.spaces st m.zones 0 _ _ _ _ _ _ hz
    have hlen0 : (lumPhase b.luminaires st
        (hvacPhase b.hvacs st (List.replicate m.zones.length 0))).length = m.zones.length := by
      rw [lumPhase_length, hvacPhase_length, List.length_replicate]
    have hia3 : i < a3.length := by rw [hla, hlen0]; exact hi
    have hib3 : i < b3.length := by rw [hlb, List.length_replicate]; exact hi
    obtain ⟨e1, e2⟩ := hmain i hi (by rw [hla] at hia3; simpa using hia3)
      (by rw [hlb] at hib3; simpa using hib3)
    obtain ⟨hsl1, hsl2⟩ := iterateSurfaces_length m.surfaces st a3 b3
    have hi1 : i < (iterateSurfaces m.surfaces st a3 b3).1.length := by rw [hsl1]; exact hia3
    have hi2 : i < (iterateSurfaces m.surfaces st a3 b3).2.length := by rw [hsl2]; exact hib3
    obtain ⟨f1, f2⟩ := iterateSurfaces_getD m.surfaces st a3 b3 i hia3 hib3
    obtain ⟨g1, g2⟩ := iterateSurfaces_getD m.fenestrations st
      (iterateSurfaces m.surfaces st a3 b3).1 (iterateSurfaces m.surfaces st a3 b3).2 i hi1 hi2
    subst ha hbb
    simp only [Nat.zero_add] at e1 e2
    rw [g1, g2, f1, f2, e1, e2]
    rw [replicate_getD _ _ hi]
    simp only [List.map_append, List.sum_append]
    constructor <;> ring

/-- C5: for every surface and fenestration and each of its two faces whose
boundary is a zone `z`, `iterate_surfaces` (the surface pass of
`calculate_zones_abc`) adds `h*A_surf*T_surf` to `A_z` and `h*A_surf` to
`B_z`, with `h` the reciprocal of that face's surface resistance, `A_surf`
the area and `T_surf` that face's node temperature read from the state;
faces with no boundary or a non-zone boundary contribute nothing. -/
theorem C5_surface_contributions (surfs : List TSurface) (st : SimState)
    (a bb : List ℝ) (z : ℕ) (ha : z < a.length) (hb : z < bb.length) :
    (iterateSurfaces surfs st a bb).1.getD z 0 =
        a.getD z 0 + (surfs.map fun s => surfContribA s st z).sum ∧
      (iterateSurfaces surfs st a bb).2.getD z 0 =
        bb.getD z 0 + (surfs.map fun s => surfContribB s z).sum :=
  iterateSurfaces_getD surfs st a bb z ha hb

/-- A concrete surface used to instantiate claim theorems: front face sees
zone 0, back face sees outdoors. -/
def sW5 : TSurface :=
  { area := 4
    rs_front := 2
    rs_back := 3
    front_boundary := some (.space 0)
    back_boundary := none
    front_temperature := fun _ => 25
    back_temperature := fun _ => 18
    march := fun st _ _ _ => st }

/-- Witness for C5 at a concrete surface list. -/
theorem C5_surface_contributions_witness :
    (iterateSurfaces [sW5] [] [0] [0]).1.getD 0 0 =
        ([(0 : ℝ)].getD 0 0 + ([sW5].map fun s => surfContribA s [] 0).sum) ∧
      (iterateSurfaces [sW5] [] [0] [0]).2.getD 0 0 =
        ([(0 : ℝ)].getD 0 0 + ([sW5].map fun s => surfContribB s 0).sum) :=
  C5_surface_contributions [sW5] [] [0] [0] 0 (by decide) (by decide)

/-- The zone used in the concrete C3 instantiation. -/
def zoneC3 : ThermalZone :=
  { name := "ThermalZone::space0"
    index := 0
    surface_indexes := []
    volume := 1
    temperature_state_index := 0
    heating_cooling_state_index := none
    luminaire_state_index := none }

/-- A space reporting an infiltration temperature of 10 C and an
infiltration volumetric flow of 2 m3/s, and no ventilation. -/
def spC3 : Space :=
  { infiltration_temperature := fun _ => some 10
    infiltration_volume := fun _ => some 2
    ventilation_temperature := fun _ => none
    ventilation_volume := fun _ => none }

/-- The one-space building of the concrete C3 instantiation. -/
def bC3 : Building := { spaces := [spC3], hvacs := [], luminaires := [] }

/-- A one-zone model with no surfaces, for the C3 instantiation. -/
def mC3 : ThermalModel :=
  { zones := [zoneC3], surfaces := [], fenestrations := [], dt_subdivisions := 1, dt := 60 }

/-- C3 counterexample: with infiltration flow 2 m3/s at 10 C and everything
else absent, `calculate_zones_abc` puts `V_inf*c_p*T_inf` into `A_0` —
which differs from the claimed `rho_inf*V_inf*c_inf*T_inf`, since the
source multiplies no air density into the infiltration terms. -/
theorem C3_counterexample :
    mC3.calculate_zones_abc bC3 [] =
        some ([0 + 2 * air_specific_heat * 10], [0 + 2 * air_specific_heat], [zoneC3.mcp]) ∧
      (0 : ℝ) + 2 * air_specific_heat * 10 ≠ air_density * 2 * air_specific_heat * 10 := by
  constructor
  · rfl
  · rw [air_specific_heat, air_density]
    norm_num

/-- C3 (amended): for every zone `i` whose space reports an infiltration
temperature `T_inf` and volumetric flow `V_inf`, `calculate_zones_abc` adds
`V_inf*c_p*T_inf` to `A_i` and `V_inf*c_p` to `B_i`, where `c_p` is the
constant air specific heat (no air density factor is applied); ventilation
contributes terms of the identical shape using the ventilation flow and
temperature.  Stated as a full characterization of `A_i` and `B_i`:
on top of the HVAC and luminaire gains, `A_i` carries exactly the
infiltration term, the ventilation term and the surface terms, and `B_i`
exactly the infiltration, ventilation and surface terms. -/
theorem C3_infiltration_ventilation (m : ThermalModel) (b : Building) (st : SimState)
    (a bb c : List ℝ) (i : ℕ)
    (h : m.calculate_zones_abc b st = some (a, bb, c)) (hi : i < m.zones.length) :
    a.getD i 0 =
        (lumPhase b.luminaires st
            (hvacPhase b.hvacs st (List.replicate m.zones.length 0))).getD i 0 +
          infContribA (b.spaces.getD i defaultSpace) st +
          ventContribA (b.spaces.getD i defaultSpace) st +
          ((m.surfaces ++ m.fenestrations).map fun s => surfContribA s st i).sum ∧
      bb.getD i 0 =
        infContribB (b.spaces.getD i defaultSpace) st +
          ventContribB (b.spaces.getD i defaultSpace) st +
          ((m.surfaces ++ m.fenestrations).map fun s => surfContribB s i).sum :=
  calculate_zones_abc_spec m b st a bb c i h hi

/-- Witness for the amended C3 at the concrete one-zone building. -/
theorem C3_infiltration_ventilation_witness :
    ([0 + 2 * air_specific_heat * 10] : List ℝ).getD 0 0 =
        (lumPhase bC3.luminaires []
            (hvacPhase bC3.hvacs [] (List.replicate mC3.zones.length 0))).getD 0 0 +
          infContribA (bC3.spaces.getD 0 defaultSpace) [] +
          ventContribA (bC3.spaces.getD 0 defaultSpace) [] +
          ((mC3.surfaces ++ mC3.fenestrations).map fun s => surfContribA s [] 0).sum ∧
      ([0 + 2 * air_specific_heat] : List ℝ).getD 0 0 =
        infContribB (bC3.spaces.getD 0 defaultSpace) [] +
          ventContribB (bC3.spaces.getD 0 defaultSpace) [] +
          ((mC3.surfaces ++ mC3.fenestrations).map fun s => surfContribB s 0).sum :=
  C3_infiltration_ventilation mC3 bC3 []
    [0 + 2 * air_specific_heat * 10] [0 + 2 * air_specific_heat] [zoneC3.mcp]
    0 rfl (by decide)

/-- The zone of the concrete C1 instantiation. -/
def zoneC1 : ThermalZone :=
  { name := "ThermalZone::space0"
    index := 0
    surface_indexes := []
    volume := 40
    temperature_state_index := 0
    heating_cooling_state_index := none
    luminaire_state_index := none }

/-- A one-zone model used to evaluate the analytic zone update. -/
def mC1 : ThermalModel :=
  { zones := [zoneC1], surfaces := [], fenestrations := [], dt_subdivisions := 1, dt := 60 }

/-- C1 counterexample: with `B_0 = 1e-9` (so `|B_0| <= 1e-9`), `A_0 = 1`,
`C_0 = 1`, `t_current[0] = 0` and `future_time = 1`,
`estimate_zones_future_temperatures` does not return `t_current[0]`:
the source has no small-`B` fallback and always evaluates
`A/B + (t - A/B)*exp(-B*t/C)`, whose value here is `1e9*(1 - exp(-1e-9)) > 0`. -/
theorem C1_counterexample :
    |(1 : ℝ) / 1000000000| ≤ 1 / 1000000000 ∧
      (mC1.estimate_zones_future_temperatures [0] [1] [1 / 1000000000] [1] 1).getD 0 0 ≠
        ([(0 : ℝ)].getD 0 0) := by
  constructor
  · rw [abs_of_pos (by norm_num : (0 : ℝ) < 1 / 1000000000)]
  · show (1 : ℝ) / (1 / 1000000000) +
        (0 - 1 / (1 / 1000000000)) * Real.exp (-(1 / 1000000000) * 1 / 1) ≠ 0
    intro heq
    have hexp : Real.exp (-(1 / 1000000000 : ℝ) * 1 / 1) < 1 := by
      calc Real.exp (-(1 / 1000000000 : ℝ) * 1 / 1) < Real.exp 0 :=
            Real.exp_lt_exp.mpr (by norm_num)
        _ = 1 := Real.exp_zero
    norm_num at heq
    linarith

/-- C1 (amended): `estimate_zones_future_temperatures` applies the analytic
formula `A/B + (t_current - A/B)*exp(-B*dt/C)` to every zone
unconditionally; there is no fallback branch for `|B| <= 1e-9`, so for a
zone with `B` nonzero but within that bound the returned temperature is the
formula's value, not `t_current[i]` (they differ whenever `A/B` differs
from `t_current[i]`). -/
theorem C1_analytic_update_unconditional (m : ThermalModel) (t a b c : List ℝ)
    (ft : ℝ) (i : ℕ) (hi : i < m.zones.length) :
    (m.estimate_zones_future_temperatures t a b c ft).getD i 0 =
      a.getD i 0 / b.getD i 0 +
        (t.getD i 0 - a.getD i 0 / b.getD i 0) *
          Real.exp (-b.getD i 0 * ft / c.getD i 0) := by
  unfold ThermalModel.estimate_zones_future_temperatures
  exact range_map_getD _ _ hi _

/-- Witness for the amended C1 at concrete coefficient lists. -/
theorem C1_analytic_update_unconditional_witness :
    (mC1.estimate_zones_future_temperatures [5] [3] [2] [7] 1).getD 0 0 =
      ([(3 : ℝ)].getD 0 0) / ([(2 : ℝ)].getD 0 0) +
        (([(5 : ℝ)].getD 0 0) - ([(3 : ℝ)].getD 0 0) / ([(2 : ℝ)].getD 0 0)) *
          Real.exp (-([(2 : ℝ)].getD 0 0) * 1 / ([(7 : ℝ)].getD 0 0)) :=
  C1_analytic_update_unconditional mC1 [5] [3] [2] [7] 1 0 (by decide)

/-- C2 evaluation at the failing input: for per-construction divisors
`[2, 3]`, the subdivision loop of `ThermalModel::new` yields 6 — the
product of the divisors — while the maximum over the constructions is 3.
The line `found_n_subdivisions *= n_subdivisions` multiplies each candidate
by the accumulator before comparing, contradicting the source's own
comments ("Take note of the largest number of subdivisions required",
"maximum timestep_subdivisions"). -/
theorem C2_subdivisions_failing_input :
    newDtSubdivisions [2, 3] = 6 ∧ List.foldr max 1 [2, 3] = 3 ∧
      newDtSubdivisions [2, 3] ≠ List.foldr max 1 [2, 3] := by decide

/-- A surface whose front boundary is `Ground`, for the C4 instantiation. -/
def sGround : TSurface :=
  { area := 1
    rs_front := 1
    rs_back := 1
    front_boundary := some .ground
    back_boundary := none
    front_temperature := fun _ => 22
    back_temperature := fun _ => 22
    march := fun st _ _ _ => st }

/-- A model holding only the ground-bounded surface. -/
def mC4 : ThermalModel :=
  { zones := [], surfaces := [sGround], fenestrations := [], dt_subdivisions := 1, dt := 60 }

/-- A weather capability that always provides a dry-bulb temperature. -/
def wC4 : Weather := { dry_bulb_temperature := fun _ => some 30 }

/-- A building with no spaces, HVACs or luminaires. -/
def bEmpty : Building := { spaces := [], hvacs := [], luminaires := [] }

/-- C4 counterexample: on a model with a Ground-bounded surface, `march`
does not return an error value at all — it hits the `unimplemented!()`
panic. -/
theorem C4_counterexample :
    mC4.march wC4 bEmpty [] 0 = .panicked "not implemented" ∧
      (mC4.march wC4 bEmpty [] 0).isErr = false :=
  ⟨rfl, rfl⟩

lemma resolveBoundaryTemp_none_iff (bd : Option Boundary) (tc : List ℝ) (t_out : ℝ) :
    resolveBoundaryTemp bd tc t_out = none ↔ bd = some .ground := by
  cases bd with
  | none => simp [resolveBoundaryTemp]
  | some b => cases b <;> simp [resolveBoundaryTemp]

lemma marchSurfaceList_ground (surfs : List TSurface) (tc : List ℝ) (t_out dt : ℝ)
    (st : SimState)
    (hg : ∃ s ∈ surfs, s.front_boundary = some .ground ∨ s.back_boundary = some .ground) :
    marchSurfaceList surfs tc t_out dt st = .error "not implemented" := by
  induction surfs generalizing st with
  | nil => simp at hg
  | cons s rest ih =>
    rcases hf : resolveBoundaryTemp s.front_boundary tc t_out with _ | tf
    · simp [marchSurfaceList, hf]
    · rcases hb2 : resolveBoundaryTemp s.back_boundary tc t_out with _ | tb
      · simp [marchSurfaceList, hf, hb2]
      · simp only [marchSurfaceList, hf, hb2]
        apply ih
        obtain ⟨s0, hs0, hor⟩ := hg
        rcases List.mem_cons.mp hs0 with rfl | hmem
        · exfalso
          rcases hor with h | h
          · rw [(resolveBoundaryTemp_none_iff s0.front_boundary tc t_out).mpr h] at hf
            exact Option.noConfusion hf
          · rw [(resolveBoundaryTemp_none_iff s0.back_boundary tc t_out).mpr h] at hb2
            exact Option.noConfusion hb2
        · exact ⟨s0, hmem, hor⟩

lemma marchSurfaceList_ok_of_no_ground (surfs : List TSurface) (tc : List ℝ)
    (t_out dt : ℝ) (st : SimState)
    (h : ∀ s ∈ surfs, s.front_boundary ≠ some .ground ∧ s.back_boundary ≠ some .ground) :
    ∃ st1, marchSurfaceList surfs tc t_out dt st = .ok st1 := by
  induction surfs generalizing st with
  | nil => exact ⟨st, rfl⟩
  | cons s rest ih =>
    obtain ⟨hfg, hbg⟩ := h s (List.mem_cons_self s rest)
    rcases hfe : resolveBoundaryTemp s.front_boundary tc t_out with _ | tf
    · exact absurd ((resolveBoundaryTemp_none_iff _ _ _).mp hfe) hfg
    · rcases hbe : resolveBoundaryTemp s.back_boundary tc t_out with _ | tb
      · exact absurd ((resolveBoundaryTemp_none_iff _ _ _).mp hbe) hbg
      · obtain ⟨st1, h1⟩ := ih (s.march st tf tb dt)
          (fun s2 hs2 => h s2 (List.mem_cons_of_mem s hs2))
        exact ⟨st1, by simp only [marchSurfaceList, hfe, hbe]; exact h1⟩

/-- C4 (amended): when a surface or fenestration has a Ground boundary,
`march` panics at the `unimplemented!()` ("not implemented") instead of
returning an error value; shown at the substep reaching the boundary and,
for the first substep, for the whole `march` call. -/
theorem C4_ground_panics (m : ThermalModel) (w : Weather) (b : Building)
    (st : SimState) (d t_out : ℝ) (tc : List ℝ)
    (hw : w.dry_bulb_temperature (d + m.dt) = some t_out)
    (htc : zoneTemps m.zones st = some tc)
    (hg : (∃ s ∈ m.surfaces, s.front_boundary = some .ground ∨ s.back_boundary = some .ground) ∨
      ((∀ s ∈ m.surfaces, s.front_boundary ≠ some .ground ∧ s.back_boundary ≠ some .ground) ∧
        ∃ s ∈ m.fenestrations,
          s.front_boundary = some .ground ∨ s.back_boundary = some .ground)) :
    m.substep w b st d = .panicked "not implemented" ∧
      (0 < m.dt_subdivisions → m.march w b st d = .panicked "not implemented") := by
  have hsub : m.substep w b st d = .panicked "not implemented" := by
    simp only [ThermalModel.substep, hw, htc]
    rcases hg with hgs | ⟨hok, hgf⟩
    · rw [marchSurfaceList_ground _ _ _ _ _ hgs]
    · obtain ⟨st1, h1⟩ := marchSurfaceList_ok_of_no_ground m.surfaces tc t_out m.dt st hok
      simp only [h1]
      rw [marchSurfaceList_ground _ _ _ _ _ hgf]
  refine ⟨hsub, fun hpos => ?_⟩
  unfold ThermalModel.march
  rcases hk : m.dt_subdivisions with _ | k
  · omega
  · simp only [marchLoop, hsub]

/-- Witness for the amended C4 at the concrete ground-bounded model. -/
theorem C4_ground_panics_witness :
    mC4.substep wC4 bEmpty [] 0 = .panicked "not implemented" ∧
      (0 < mC4.dt_subdivisions → mC4.march wC4 bEmpty [] 0 = .panicked "not implemented") :=
  C4_ground_panics mC4 wC4 bEmpty [] 0 30 [] rfl rfl
    (Or.inl ⟨sGround, by simp [mC4], Or.inl rfl⟩)

lemma substep_ok_date (m : ThermalModel) (w : Weather) (b : Building)
    (st : SimState) (d : ℝ) (st1 : SimState) (d1 : ℝ)
    (h : m.substep w b st d = .ok st1 d1) : d1 = d + m.dt := by
  simp only [ThermalModel.substep] at h
  repeat' split at h
  all_goals
    first
      | exact MarchResult.noConfusion h
      | (injection h with h1 h2; exact h2.symm)

lemma marchLoop_ok_date (m : ThermalModel) (w : Weather) (b : Building) :
    ∀ (k : ℕ) (st : SimState) (d : ℝ) (st1 : SimState) (d1 : ℝ),
      marchLoop m w b k st d = .ok st1 d1 → d1 = d + k * m.dt := by
  intro k
  induction k with
  | zero =>
    intro st d st1 d1 h
    injection h with h1 h2
    rw [← h2]
    push_cast
    ring
  | succ k0 ih =>
    intro st d st1 d1 h
    simp only [marchLoop] at h
    rcases hs : m.substep w b st d with ⟨st2, d2⟩ | ⟨st2, msg⟩ | ⟨msg⟩ <;>
      simp only [hs] at h
    · have hrest := ih st2 d2 st1 d1 h
      have hd2 := substep_ok_date m w b st d st2 d2 hs
      rw [hrest, hd2]
      push_cast
      ring
    · exact MarchResult.noConfusion h
    · exact MarchResult.noConfusion h

/-- C6: whenever `march` returns `Ok`, the local date has been advanced by
`dt` exactly `dt_subdivisions` times; in particular, when
`dt = 3600/(steps_per_hour * dt_subdivisions)` as set by `ThermalModel::new`,
the total simulated time of one main step is `3600/steps_per_hour` seconds. -/
theorem C6_march_advances_date (m : ThermalModel) (w : Weather) (b : Building)
    (st : SimState) (d : ℝ) (st1 : SimState) (d1 : ℝ)
    (h : m.march w b st d = .ok st1 d1) :
    d1 = d + (m.dt_subdivisions : ℝ) * m.dt ∧
      (∀ n : ℕ, 0 < m.dt_subdivisions →
        m.dt = 3600 / ((n : ℝ) * (m.dt_subdivisions : ℝ)) →
        d1 = d + 3600 / (n : ℝ)) := by
  have h1 := marchLoop_ok_date m w b m.dt_subdivisions st d st1 d1 h
  refine ⟨h1, fun n hpos hdt => ?_⟩
  rw [h1, hdt]
  rcases Nat.eq_zero_or_pos n with rfl | hn
  · simp
  · have hs : ((m.dt_subdivisions : ℝ)) ≠ 0 := Nat.cast_ne_zero.mpr (by omega)
    have hn2 : ((n : ℝ)) ≠ 0 := Nat.cast_ne_zero.mpr (by omega)
    field_simp
    ring

/-- A model with no zones and no surfaces, two substeps of 900 s each
(`steps_per_hour = 2`, so `dt = 3600/(2*2) = 900`). -/
def mC6 : ThermalModel :=
  { zones := [], surfaces := [], fenestrations := [], dt_subdivisions := 2, dt := 900 }

/-- Witness for C6: a concrete two-substep march lands `2*900` seconds
after the starting date. -/
theorem C6_march_advances_date_witness :
    (5 + 900 + 900 : ℝ) = 5 + (mC6.dt_subdivisions : ℝ) * mC6.dt ∧
      (∀ n : ℕ, 0 < mC6.dt_subdivisions →
        mC6.dt = 3600 / ((n : ℝ) * (mC6.dt_subdivisions : ℝ)) →
        (5 + 900 + 900 : ℝ) = 5 + 3600 / (n : ℝ)) :=
  C6_march_advances_date mC6 wC4 bEmpty [] 5 [] (5 + 900 + 900) rfl

/-- C7: within one substep, the boundary temperatures that every surface
and every fenestration receives come from the zone-temperature snapshot
`t_current` taken at the start of the substep (both passes take `tc`
computed from the entry state `st`), the (A,B,C) assembly is performed only
on the state `st2` produced after all surface and fenestration marches, and
the new zone temperatures are written (by `writeZones`, the outermost
operation) only after the assembly. -/
theorem C7_substep_ordering (m : ThermalModel) (w : Weather) (b : Building)
    (st st1 st2 : SimState) (d t_out : ℝ) (tc a bb c : List ℝ)
    (hw : w.dry_bulb_temperature (d + m.dt) = some t_out)
    (htc : zoneTemps m.zones st = some tc)
    (hs : marchSurfaceList m.surfaces tc t_out m.dt st = .ok st1)
    (hf : marchSurfaceList m.fenestrations tc t_out m.dt st1 = .ok st2)
    (habc : m.calculate_zones_abc b st2 = some (a, bb, c)) :
    m.substep w b st d =
      .ok (writeZones m.zones (m.estimate_zones_future_temperatures tc a bb c m.dt) 0 st2)
        (d + m.dt) := by
  simp only [ThermalModel.substep, hw, htc, hs, hf, habc]

/-- The zone of the C7 instantiation (temperature stored in state slot 0). -/
def zoneC7 : ThermalZone :=
  { name := "ThermalZone::space0"
    index := 0
    surface_indexes := [0]
    volume := 40
    temperature_state_index := 0
    heating_cooling_state_index := none
    luminaire_state_index := none }

/-- A surface whose `march` clobbers the zone-temperature slot, to
demonstrate that later phases still see the snapshot value. -/
def sC7 : TSurface :=
  { area := 4
    rs_front := 2
    rs_back := 3
    front_boundary := none
    back_boundary := none
    front_temperature := fun _ => 24
    back_temperature := fun _ => 24
    march := fun st _ _ _ => st.set 0 (.SpaceDryBulbTemperature 0 999) }

/-- The one-space building of the C7 instantiation. -/
def bC7 : Building := { spaces := [defaultSpace], hvacs := [], luminaires := [] }

/-- The one-zone one-surface model of the C7 instantiation. -/
def mC7 : ThermalModel :=
  { zones := [zoneC7], surfaces := [sC7], fenestrations := [], dt_subdivisions := 1, dt := 900 }

/-- The entry state of the C7 instantiation: the zone is at 20 C. -/
def stC7 : SimState := [.SpaceDryBulbTemperature 0 20]

/-- Witness for C7: even though the surface march overwrites the zone slot
with 999 during the substep, the analytic update is fed the snapshot
temperature 20 read at the start of the substep, and the assembly runs on
the post-march state. -/
theorem C7_substep_ordering_witness :
    mC7.substep wC4 bC7 stC7 0 =
      .ok (writeZones mC7.zones
          (mC7.estimate_zones_future_temperatures [20] [0] [0] [zoneC7.mcp] mC7.dt) 0
          [.SpaceDryBulbTemperature 0 999])
        (0 + mC7.dt) :=
  C7_substep_ordering mC7 wC4 bC7 stC7
    [.SpaceDryBulbTemperature 0 999] [.SpaceDryBulbTemperature 0 999]
    0 30 [20] [0] [0] [zoneC7.mcp] rfl rfl rfl rfl rfl

/-- C8: if the weather provides no dry-bulb temperature for a substep, that
substep returns an `Err` carrying the *unchanged* state (no surface or zone
has been advanced); in particular when the field is absent at the first
substep the whole `march` call returns the error with the state unchanged. -/
theorem C8_missing_weather (m : ThermalModel) (w : Weather) (b : Building)
    (st : SimState) (d : ℝ)
    (hw : w.dry_bulb_temperature (d + m.dt) = none) :
    m.substep w b st d = .err st weatherErrMsg ∧
      (0 < m.dt_subdivisions → m.march w b st d = .err st weatherErrMsg) := by
  have hsub : m.substep w b st d = .err st weatherErrMsg := by
    simp only [ThermalModel.substep, hw]
  refine ⟨hsub, fun hpos => ?_⟩
  unfold ThermalModel.march
  rcases hk : m.dt_subdivisions with _ | k
  · omega
  · simp only [marchLoop, hsub]

/-- A weather capability that never provides a dry-bulb temperature. -/
def wNone : Weather := { dry_bulb_temperature := fun _ => none }

/-- Witness for C8 at a concrete model and absent weather. -/
theorem C8_missing_weather_witness :
    mC1.substep wNone bEmpty [] 0 = .err [] weatherErrMsg ∧
      (0 < mC1.dt_subdivisions → mC1.march wNone bEmpty [] 0 = .err [] weatherErrMsg) :=
  C8_missing_weather mC1 wNone bEmpty [] 0 rfl

/-- C9: `get_thermal_zone`, `get_thermal_surface` and
`get_thermal_fenestration` return `Ok` with the requested element exactly
when the index is inside the corresponding array, and an error value
otherwise.  (They are pure functions of the model — the Rust signatures
take `&self` and the embedding takes no state at all, so no mutation of
model or state is possible.) -/
theorem C9_get_accessors (m : ThermalModel) (i : ℕ) :
    (∀ h : i < m.zones.length, m.get_thermal_zone i = .ok (m.zones.get ⟨i, h⟩)) ∧
      (m.zones.length ≤ i → ∃ e, m.get_thermal_zone i = .error e) ∧
      (∀ h : i < m.surfaces.length, m.get_thermal_surface i = .ok (m.surfaces.get ⟨i, h⟩)) ∧
      (m.surfaces.length ≤ i → ∃ e, m.get_thermal_surface i = .error e) ∧
      (∀ h : i < m.fenestrations.length,
        m.get_thermal_fenestration i = .ok (m.fenestrations.get ⟨i, h⟩)) ∧
      (m.fenestrations.length ≤ i → ∃ e, m.get_thermal_fenestration i = .error e) := by
  refine ⟨fun h => ?_, fun h => ?_, fun h => ?_, fun h => ?_, fun h => ?_, fun h => ?_⟩
  · rw [ThermalModel.get_thermal_zone, dif_neg (not_le.mpr h)]
  · exact ⟨_, by rw [ThermalModel.get_thermal_zone, dif_pos h]⟩
  · rw [ThermalModel.get_thermal_surface, dif_neg (not_le.mpr h)]
  · exact ⟨_, by rw [ThermalModel.get_thermal_surface, dif_pos h]⟩
  · rw [ThermalModel.get_thermal_fenestration, dif_neg (not_le.mpr h)]
  · exact ⟨_, by rw [ThermalModel.get_thermal_fenestration, dif_pos h]⟩

/-- A model with one zone and empty surface and fenestration arrays. -/
def mC9 : ThermalModel :=
  { zones := [zoneC1], surfaces := [], fenestrations := [], dt_subdivisions := 1, dt := 60 }

/-- Witness for C9: index 0 is in bounds for the zones array and out of
bounds for the empty surface and fenestration arrays. -/
theorem C9_get_accessors_witness :
    mC9.get_thermal_zone 0 = .ok (mC9.zones.get ⟨0, by decide⟩) ∧
      (∃ e, mC9.get_thermal_surface 0 = .error e) ∧
      (∃ e, mC9.get_thermal_fenestration 0 = .error e) :=
  ⟨(C9_get_accessors mC9 0).1 (by decide),
    (C9_get_accessors mC9 0).2.2.2.1 (by decide),
    (C9_get_accessors mC9 0).2.2.2.2.2 (by decide)⟩

/-- C10: when `luminaire_state_index` is `Some i` and state slot `i` holds a
`SpaceLightingPowerConsumption` element, `calc_lighting_power` panics
exactly when that element's space index equals the zone's own index, and
returns the stored power value exactly when the two indices differ; when
`luminaire_state_index` is `None` it returns 0.0. -/
theorem C10_calc_lighting_power (z : ThermalZone) (st : SimState) :
    (∀ i si s, z.luminaire_state_index = some i →
      st.get? i = some (.SpaceLightingPowerConsumption si s) →
      ((z.calc_lighting_power st = .panicked lightingPanicMsg ↔ si = z.index) ∧
        (si ≠ z.index → z.calc_lighting_power st = .value s))) ∧
      (z.luminaire_state_index = none → z.calc_lighting_power st = .value 0.0) := by
  constructor
  · intro i si s hlum hslot
    simp only [ThermalZone.calc_lighting_power, hlum, hslot]
    by_cases hsi : si = z.index
    · simp [hsi]
    · simp [hsi]
  · intro hlum
    simp only [ThermalZone.calc_lighting_power, hlum]

/-- A zone whose luminaire state lives in slot 0. -/
def zoneC10 : ThermalZone :=
  { name := "ThermalZone::space0"
    index := 0
    surface_indexes := []
    volume := 40
    temperature_state_index := 1
    heating_cooling_state_index := none
    luminaire_state_index := some 0 }

/-- The state of the C10 instantiation: slot 0 stores 100 W of lighting
power recorded against space 1 (different from the zone's index 0). -/
def stC10 : SimState := [.SpaceLightingPowerConsumption 1 100]

/-- Witness for C10: with differing indices the stored power is returned. -/
theorem C10_calc_lighting_power_witness :
    zoneC10.calc_lighting_power stC10 = .value 100 :=
  (((C10_calc_lighting_power zoneC10 stC10).1 0 1 100 rfl rfl).2) (by decide)
